import Mathlib

/-!
Shallow embedding of the agent/orchestrator core of the `ai-chatbot-workshop`
repository (`src/chatbot/agent.py`, `src/chatbot/intent_classifier.py`,
`src/chatbot/tool.py`), together with proofs of the specification claims
about it.

Modelling conventions:
* Python values that can result from `json.loads` are modelled by the
  inductive `Json` (numbers as rationals, merging Python `int`/`float`).
* A raised Python exception is modelled as `Except.error msg` with the
  exception's message string.
* The external LLM call (`generate_text`) is modelled as an oracle
  `Model : Prompt → Except String String`: each call site builds a `Prompt`
  value carrying exactly the arguments the corresponding builder in
  `prompts.py` receives (the builders are pure, total string formatting, and
  no claim depends on the rendered prompt text), and the oracle returns
  either the generated text or the raised exception's message.
  Quantifying over the oracle quantifies over every behaviour of the model:
  any returned string and any raised exception.
-/

namespace Chatbot

/-- Python values produced by `json.loads` (and Python scalars generally):
`None`, `bool`, numbers (`int`/`float` merged into `ℚ`), `str`, `list`,
`dict` with string keys. -/
inductive Json where
  | null : Json
  | bool (b : Bool) : Json
  | num (q : ℚ) : Json
  | str (s : String) : Json
  | arr (elems : List Json) : Json
  | obj (fields : List (String × Json)) : Json
deriving Repr

mutual

/-- Decidable structural equality on `Json` (Python `==` restricted to
these shapes; Python's numeric cross-type equalities like `True == 1` are
not needed by any claim and are not modelled). -/
def Json.decEq : (a b : Json) → Decidable (a = b)
  | .null, .null => .isTrue rfl
  | .null, .bool _ | .null, .num _ | .null, .str _ | .null, .arr _ | .null, .obj _ =>
      .isFalse fun h => Json.noConfusion h
  | .bool _, .null | .bool _, .num _ | .bool _, .str _ | .bool _, .arr _ | .bool _, .obj _ =>
      .isFalse fun h => Json.noConfusion h
  | .num _, .null | .num _, .bool _ | .num _, .str _ | .num _, .arr _ | .num _, .obj _ =>
      .isFalse fun h => Json.noConfusion h
  | .str _, .null | .str _, .bool _ | .str _, .num _ | .str _, .arr _ | .str _, .obj _ =>
      .isFalse fun h => Json.noConfusion h
  | .arr _, .null | .arr _, .bool _ | .arr _, .num _ | .arr _, .str _ | .arr _, .obj _ =>
      .isFalse fun h => Json.noConfusion h
  | .obj _, .null | .obj _, .bool _ | .obj _, .num _ | .obj _, .str _ | .obj _, .arr _ =>
      .isFalse fun h => Json.noConfusion h
  | .bool a, .bool b =>
    match instDecidableEqBool a b with
    | .isTrue h => .isTrue (h ▸ rfl)
    | .isFalse h => .isFalse fun hh => h (Json.bool.inj hh)
  | .num a, .num b =>
    match inferInstanceAs (Decidable (a = b)) with
    | .isTrue h => .isTrue (h ▸ rfl)
    | .isFalse h => .isFalse fun hh => h (Json.num.inj hh)
  | .str a, .str b =>
    match String.decEq a b with
    | .isTrue h => .isTrue (h ▸ rfl)
    | .isFalse h => .isFalse fun hh => h (Json.str.inj hh)
  | .arr a, .arr b =>
    match Json.decEqList a b with
    | .isTrue h => .isTrue (h ▸ rfl)
    | .isFalse h => .isFalse fun hh => h (Json.arr.inj hh)
  | .obj a, .obj b =>
    match Json.decEqFields a b with
    | .isTrue h => .isTrue (h ▸ rfl)
    | .isFalse h => .isFalse fun hh => h (Json.obj.inj hh)

def Json.decEqList : (a b : List Json) → Decidable (a = b)
  | [], [] => .isTrue rfl
  | [], _ :: _ => .isFalse fun h => List.noConfusion h
  | _ :: _, [] => .isFalse fun h => List.noConfusion h
  | a :: as, b :: bs =>
    match Json.decEq a b, Json.decEqList as bs with
    | .isTrue h1, .isTrue h2 => .isTrue (by rw [h1, h2])
    | .isFalse h1, _ => .isFalse fun hh => h1 (List.cons.inj hh).1
    | _, .isFalse h2 => .isFalse fun hh => h2 (List.cons.inj hh).2

def Json.decEqFields : (a b : List (String × Json)) → Decidable (a = b)
  | [], [] => .isTrue rfl
  | [], _ :: _ => .isFalse fun h => List.noConfusion h
  | _ :: _, [] => .isFalse fun h => List.noConfusion h
  | (ka, va) :: as, (kb, vb) :: bs =>
    match String.decEq ka kb, Json.decEq va vb, Json.decEqFields as bs with
    | .isTrue hk, .isTrue hv, .isTrue ht => .isTrue (by rw [hk, hv, ht])
    | .isFalse hk, _, _ =>
        .isFalse fun hh => hk (congrArg Prod.fst (List.cons.inj hh).1)
    | _, .isFalse hv, _ =>
        .isFalse fun hh => hv (congrArg Prod.snd (List.cons.inj hh).1)
    | _, _, .isFalse ht => .isFalse fun hh => ht (List.cons.inj hh).2

end

instance : DecidableEq Json := Json.decEq

/-- Python truthiness (`bool(x)`) of a `Json` value: `None`, `False`, `0`,
`""`, `[]`, `{}` are falsy; everything else is truthy. -/
def jTruthy : Json → Bool
  | .null => false
  | .bool b => b
  | .num q => q != 0
  | .str s => s != ""
  | .arr xs => !xs.isEmpty
  | .obj kvs => !kvs.isEmpty

/-- Python `a or b` on `Json` values. -/
def pyOrJson (a b : Json) : Json := if jTruthy a then a else b

/-- Python `a or b` where `a` is an `Optional[str]` (as in
`tool_result or "..."` in `agent.py`): falsy for `None` and `""`. -/
def pyOrOptStr (a : Option String) (b : String) : String :=
  match a with
  | some s => if s = "" then b else s
  | none => b

/-- Truthiness of an `Optional[str]` value. -/
def optStrTruthy (a : Option String) : Bool :=
  match a with
  | some s => s != ""
  | none => false

/-- Python `a or b` on strings (only emptiness decides truthiness). -/
def pyOrStr (a b : String) : String := if a = "" then b else a

/-! ### Characters and whitespace

Character constants are written via `Char.ofNat` to keep string literals
plain.  `isPyWs` is the ASCII part of Python's `str.strip` / regex `\s`
whitespace class. -/

def chBacktick : Char := Char.ofNat 96

def chAcute : Char := Char.ofNat 180

def chQuote : Char := Char.ofNat 34

def chBackslash : Char := Char.ofNat 92

def chLBrace : Char := Char.ofNat 123

def chRBrace : Char := Char.ofNat 125

def chSQuote : Char := Char.ofNat 39

/-- Whitespace as stripped by Python `str.strip()` and matched by `\s`
(ASCII range: space, tab, newline, carriage return, vertical tab, form
feed). -/
def isPyWs (c : Char) : Bool :=
  c = ' ' || c = '\t' || c = '\n' || c = '\r' || c = Char.ofNat 11 || c = Char.ofNat 12

/-- Python `str.strip()` on a character list. -/
def pyStripList (cs : List Char) : List Char :=
  ((cs.dropWhile isPyWs).reverse.dropWhile isPyWs).reverse

/-- Python `str.strip()`. -/
def pyStrip (s : String) : String := (pyStripList s.toList).asString

/-! ### Response sanitization

Model of the fence-stripping block that appears identically in
`LLMIntentClassifier.classify` (intent_classifier.py) and `Agent._use_tool`
(agent.py):

```
cleaned_response = response.strip()
cleaned_response = re.sub(r'^```json\s*', '', cleaned_response)
cleaned_response = re.sub(r'^```\s*', '', cleaned_response)
cleaned_response = re.sub(r'\s*```$', '', cleaned_response)
cleaned_response = re.sub(r'^[`´]+\s*', '', cleaned_response)
cleaned_response = re.sub(r'\s*[`´]+$', '', cleaned_response)
cleaned_response = cleaned_response.strip()
```

Each pattern is anchored (`^` / `$`, no `re.M`), so each `re.sub` performs
at most one removal.  After the initial `strip()` the string has no trailing
whitespace and the later steps never create any, so `$` coincides with
end-of-string.  Greedy `\s*` removes the whole adjacent whitespace run. -/

/-- `re.sub(r'^MARKER\s*', '', s)` for a literal marker. -/
def stripFencePrefix (marker : List Char) (cs : List Char) : List Char :=
  if marker.isPrefixOf cs then (cs.drop marker.length).dropWhile isPyWs else cs

/-- `re.sub(r'\s*MARKER$', '', s)` for a literal marker (no trailing
whitespace present, see above). -/
def stripFenceSuffix (marker : List Char) (cs : List Char) : List Char :=
  (stripFencePrefix marker.reverse cs.reverse).reverse

/-- The fence characters of the `[`´]` character class. -/
def isTick (c : Char) : Bool := c = chBacktick || c = chAcute

/-- `re.sub(r'^[`´]+\s*', '', s)`. -/
def stripTickPrefix (cs : List Char) : List Char :=
  match cs with
  | [] => []
  | c :: _ => if isTick c then (cs.dropWhile isTick).dropWhile isPyWs else cs

/-- `re.sub(r'\s*[`´]+$', '', s)` (no trailing whitespace present). -/
def stripTickSuffix (cs : List Char) : List Char :=
  (stripTickPrefix cs.reverse).reverse

/-- The complete sanitization block shared by `classify` and `_use_tool`. -/
def clean_response (response : String) : String :=
  let cs := pyStripList response.toList
  let cs := stripFencePrefix "```json".toList cs
  let cs := stripFencePrefix "```".toList cs
  let cs := stripFenceSuffix "```".toList cs
  let cs := stripTickPrefix cs
  let cs := stripTickSuffix cs
  (pyStripList cs).asString

/-! ### JSON parsing

Executable model of Python's `json.loads` (strict mode, as used by the
repository): returns `some` value exactly when the whole input is one JSON
document, `none` for a `json.JSONDecodeError`.  Recursion is by an explicit
fuel parameter; the top-level entry point supplies ample fuel. -/

/-- JSON inter-token whitespace. -/
def isJsonWs (c : Char) : Bool :=
  c = ' ' || c = '\t' || c = '\n' || c = '\r'

/-- Skip inter-token whitespace. -/
def skipWs (cs : List Char) : List Char := cs.dropWhile isJsonWs

/-- Hexadecimal digit value, for `\uXXXX` escapes. -/
def hexVal? (c : Char) : Option Nat :=
  if c.isDigit then some (c.toNat - 48)
  else if 'a' ≤ c && c ≤ 'f' then some (c.toNat - 87)
  else if 'A' ≤ c && c ≤ 'F' then some (c.toNat - 55)
  else none

/-- Parse the body of a JSON string after the opening quote; returns the
decoded characters and the remaining input after the closing quote.
Strict mode: unescaped control characters are rejected. -/
def parseStringBody : Nat → List Char → Option (List Char × List Char)
  | 0, _ => none
  | Nat.succ fuel, cs =>
    match cs with
    | [] => none
    | c :: rest =>
      if c = chQuote then some ([], rest)
      else if c = chBackslash then
        match rest with
        | [] => none
        | e :: rest2 =>
          let decoded : Option (Char × List Char) :=
            if e = chQuote then some (chQuote, rest2)
            else if e = chBackslash then some (chBackslash, rest2)
            else if e = '/' then some ('/', rest2)
            else if e = 'b' then some (Char.ofNat 8, rest2)
            else if e = 'f' then some (Char.ofNat 12, rest2)
            else if e = 'n' then some ('\n', rest2)
            else if e = 'r' then some ('\r', rest2)
            else if e = 't' then some ('\t', rest2)
            else if e = 'u' then
              match rest2 with
              | h1 :: h2 :: h3 :: h4 :: rest3 =>
                match hexVal? h1, hexVal? h2, hexVal? h3, hexVal? h4 with
                | some a, some b, some c, some d =>
                    some (Char.ofNat (((a * 16 + b) * 16 + c) * 16 + d), rest3)
                | _, _, _, _ => none
              | _ => none
            else none
          match decoded with
          | some (ch, rest3) =>
            match parseStringBody fuel rest3 with
            | some (tail, rest4) => some (ch :: tail, rest4)
            | none => none
          | none => none
      else if c.toNat < 32 then none
      else
        match parseStringBody fuel rest with
        | some (tail, rest4) => some (c :: tail, rest4)
        | none => none

/-- Decimal digits to a natural number. -/
def digitsToNat (ds : List Char) : Nat :=
  ds.foldl (fun n c => 10 * n + (c.toNat - 48)) 0

/-- Parse a JSON number (strict grammar: `-? (0 | [1-9][0-9]*) (. [0-9]+)?
([eE] [+-]? [0-9]+)?`) into a rational. -/
def parseNumber (cs : List Char) : Option (ℚ × List Char) :=
  let signed : Bool × List Char :=
    match cs with
    | c :: rest => if c = '-' then (true, rest) else (false, cs)
    | [] => (false, [])
  let neg := signed.1
  let cs1 := signed.2
  let intDs := cs1.takeWhile Char.isDigit
  let rest1 := cs1.dropWhile Char.isDigit
  if intDs.isEmpty then none
  else if intDs.length > 1 && intDs.head? = some '0' then none
  else
    let fracParsed : Option (List Char × List Char) :=
      match rest1 with
      | c :: r =>
        if c = '.' then
          let ds := r.takeWhile Char.isDigit
          if ds.isEmpty then none else some (ds, r.dropWhile Char.isDigit)
        else some ([], rest1)
      | [] => some ([], rest1)
    match fracParsed with
    | none => none
    | some (fracDs, rest2) =>
      let expParsed : Option (Int × List Char) :=
        match rest2 with
        | c :: r =>
          if c = 'e' || c = 'E' then
            let signedE : Bool × List Char :=
              match r with
              | e :: r2 => if e = '-' then (true, r2) else if e = '+' then (false, r2) else (false, r)
              | [] => (false, [])
            let ds := signedE.2.takeWhile Char.isDigit
            if ds.isEmpty then none
            else
              let e : Int := Int.ofNat (digitsToNat ds)
              some (if signedE.1 then -e else e, signedE.2.dropWhile Char.isDigit)
          else some (0, rest2)
        | [] => some (0, rest2)
      match expParsed with
      | none => none
      | some (e, rest3) =>
        let mantissa : Int := Int.ofNat (digitsToNat (intDs ++ fracDs))
        let mantissa : Int := if neg then -mantissa else mantissa
        let exponent : Int := e - Int.ofNat fracDs.length
        let value : ℚ :=
          if 0 ≤ exponent then mkRat (mantissa * Int.ofNat (10 ^ exponent.toNat)) 1
          else mkRat mantissa (10 ^ (-exponent).toNat)
        some (value, rest3)

mutual

/-- Parse one JSON value at the head of the input (no leading whitespace). -/
def parseValue : Nat → List Char → Option (Json × List Char)
  | 0, _ => none
  | Nat.succ fuel, cs =>
    match cs with
    | [] => none
    | c :: rest =>
      if c = chLBrace then
        parseObjectBody fuel (skipWs rest) true
      else if c = '[' then
        parseArrayBody fuel (skipWs rest) true
      else if c = chQuote then
        match parseStringBody (rest.length + 1) rest with
        | some (content, rest2) => some (.str content.asString, rest2)
        | none => none
      else if "true".toList.isPrefixOf cs then some (.bool true, cs.drop 4)
      else if "false".toList.isPrefixOf cs then some (.bool false, cs.drop 5)
      else if "null".toList.isPrefixOf cs then some (.null, cs.drop 4)
      else
        match parseNumber cs with
        | some (q, rest2) => some (.num q, rest2)
        | none => none

/-- Parse the members of an object after `{` (whitespace already skipped);
`first` marks whether no member has been read yet. -/
def parseObjectBody : Nat → List Char → Bool → Option (Json × List Char)
  | 0, _, _ => none
  | Nat.succ fuel, cs, first =>
    match cs with
    | [] => none
    | c :: rest =>
      if c = chRBrace && first then some (.obj [], rest)
      else
        if c ≠ chQuote then none
        else
          match parseStringBody (rest.length + 1) rest with
          | none => none
          | some (key, rest2) =>
            match skipWs rest2 with
            | ':' :: rest3 =>
              match parseValue fuel (skipWs rest3) with
              | none => none
              | some (v, rest4) =>
                match skipWs rest4 with
                | ',' :: rest5 =>
                  match parseObjectBody fuel (skipWs rest5) false with
                  | some (.obj kvs, rest6) => some (.obj ((key.asString, v) :: kvs), rest6)
                  | _ => none
                | c2 :: rest5 =>
                  if c2 = chRBrace then some (.obj [(key.asString, v)], rest5) else none
                | [] => none
            | _ => none

/-- Parse the elements of an array after `[` (whitespace already skipped). -/
def parseArrayBody : Nat → List Char → Bool → Option (Json × List Char)
  | 0, _, _ => none
  | Nat.succ fuel, cs, first =>
    match cs with
    | [] => none
    | c :: _ =>
      if c = ']' && first then some (.arr [], cs.drop 1)
      else
        match parseValue fuel cs with
        | none => none
        | some (v, rest) =>
          match skipWs rest with
          | ',' :: rest2 =>
            match parseArrayBody fuel (skipWs rest2) false with
            | some (.arr vs, rest3) => some (.arr (v :: vs), rest3)
            | _ => none
          | ']' :: rest2 => some (.arr [v], rest2)
          | _ => none

end

/-- Model of `json.loads`: `some v` on success, `none` for
`json.JSONDecodeError`. -/
def json_loads (s : String) : Option Json :=
  let cs := skipWs s.toList
  match parseValue (4 * cs.length + 16) cs with
  | some (v, rest) => if skipWs rest = [] then some v else none
  | none => none

/-! ### Dictionaries

Python `dict`s are modelled as insertion-ordered association lists.
`dictSet` is `d[k] = v` (updates in place, preserving the key's original
position, else appends); `dictGet?` is `d.get(k)` on dictionaries built by
`dictSet` (unique keys).  For dictionaries produced by `json.loads`, where
the parse may list a key twice and Python keeps the last value, `jGet?`
returns the last binding. -/

def dictSet {α : Type} (m : List (String × α)) (k : String) (v : α) : List (String × α) :=
  if m.any (fun p => p.1 == k) then m.map (fun p => if p.1 = k then (k, v) else p)
  else m ++ [(k, v)]

def dictGet? {α : Type} (m : List (String × α)) (k : String) : Option α :=
  match m with
  | [] => none
  | (k', v) :: rest => if k' = k then some v else dictGet? rest k

/-- `d.get(k)` on a parsed JSON object (duplicate keys: last wins). -/
def jGet? (kvs : List (String × Json)) (k : String) : Option Json :=
  match kvs with
  | [] => none
  | (k', v) :: rest =>
    match jGet? rest k with
    | some v' => some v'
    | none => if k' = k then some v else none

/-- `d.get(k, default)` on a parsed JSON object. -/
def jGetD (kvs : List (String × Json)) (k : String) (d : Json) : Json :=
  (jGet? kvs k).getD d

/-- `k in d` on a parsed JSON object. -/
def jHasKey (kvs : List (String × Json)) (k : String) : Bool :=
  (jGet? kvs k).isSome

/-! ### Python `float()`, `str()` and `repr()` on modelled values -/

/-- A single-quote character as a string (for Python error messages and
`repr`). -/
def sq : String := String.singleton chSQuote

/-- The Python type name of a modelled value.  `Json.num` merges `int` and
`float`; a value with denominator 1 is reported as `int` (ints and
integral floats are indistinguishable in this model — no claim depends on
the difference). -/
def pyTypeName : Json → String
  | .null => "NoneType"
  | .bool _ => "bool"
  | .num q => if q.den = 1 then "int" else "float"
  | .str _ => "str"
  | .arr _ => "list"
  | .obj _ => "dict"

/-- `float(s)` on a string: optional surrounding whitespace and sign, then
digits with an optional single dot (at least one digit in total) and an
optional exponent.  (`inf`/`nan` spellings and `_` separators are not
modelled; no claim depends on them.) -/
def pyFloatOfString (s : String) : Option ℚ :=
  let cs := pyStripList s.toList
  let signed : Bool × List Char :=
    match cs with
    | c :: rest =>
      if c = '-' then (true, rest) else if c = '+' then (false, rest) else (false, cs)
    | [] => (false, [])
  let neg := signed.1
  let cs1 := signed.2
  let intDs := cs1.takeWhile Char.isDigit
  let r1 := cs1.dropWhile Char.isDigit
  let fracSplit : List Char × List Char :=
    match r1 with
    | c :: r => if c = '.' then (r.takeWhile Char.isDigit, r.dropWhile Char.isDigit) else ([], r1)
    | [] => ([], [])
  let fracDs := fracSplit.1
  let r2 := fracSplit.2
  if intDs.isEmpty && fracDs.isEmpty then none
  else
    let expParsed : Option Int :=
      match r2 with
      | [] => some 0
      | c :: r =>
        if c = 'e' || c = 'E' then
          let signedE : Bool × List Char :=
            match r with
            | e :: r2 => if e = '-' then (true, r2) else if e = '+' then (false, r2) else (false, r)
            | [] => (false, [])
          let ds := signedE.2.takeWhile Char.isDigit
          if ds.isEmpty || !(signedE.2.dropWhile Char.isDigit).isEmpty then none
          else
            let e : Int := Int.ofNat (digitsToNat ds)
            some (if signedE.1 then -e else e)
        else none
    match expParsed with
    | none => none
    | some e =>
      let mantissa : Int := Int.ofNat (digitsToNat (intDs ++ fracDs))
      let mantissa : Int := if neg then -mantissa else mantissa
      let exponent : Int := e - Int.ofNat fracDs.length
      some (if 0 ≤ exponent then mkRat (mantissa * Int.ofNat (10 ^ exponent.toNat)) 1
            else mkRat mantissa (10 ^ (-exponent).toNat))

/-- Python `float(x)` on a modelled value: numbers and booleans convert,
numeric strings parse, everything else raises `TypeError`/`ValueError`. -/
def pyFloat : Json → Except String ℚ
  | .num q => .ok q
  | .bool b => .ok (if b then mkRat 1 1 else mkRat 0 1)
  | .str s =>
    match pyFloatOfString s with
    | some q => .ok q
    | none => .error ("could not convert string to float: " ++ sq ++ s ++ sq)
  | j => .error ("float() argument must be a string or a real number, not " ++ sq ++
      pyTypeName j ++ sq)

/-- Smallest `k` with `den ∣ 10^k` (exists iff `den` has only factors 2 and
5; the search bound is irrelevant to every claim). -/
def decExp? (den : Nat) : Option Nat :=
  (List.range 64).find? (fun k => 10 ^ k % den = 0)

/-- Python `str()`/`repr()` of a number: integers print without a point,
decimal-representable fractions with one (`0.5`), and other rationals fall
back to a fraction rendering (unreachable from parsed JSON floats, which
this model keeps exact rather than rounding to binary). -/
def ratToPyString (q : ℚ) : String :=
  if q.den = 1 then toString q.num
  else
    match decExp? q.den with
    | some k =>
      let sign := if q.num < 0 then "-" else ""
      let scaled : Nat := q.num.natAbs * 10 ^ k / q.den
      let ds := toString scaled
      let ds := if ds.length < k + 1 then
          String.mk (List.replicate (k + 1 - ds.length) '0') ++ ds
        else ds
      sign ++ ds.take (ds.length - k) ++ "." ++ ds.drop (ds.length - k)
    | none => toString q.num ++ "/" ++ toString q.den

mutual

/-- Python `repr()` of a modelled value (strings are shown in single
quotes; Python's switch to double quotes for strings containing a quote is
not modelled — no claim depends on it). -/
def pyRepr : Json → String
  | .null => "None"
  | .bool true => "True"
  | .bool false => "False"
  | .num q => ratToPyString q
  | .str s => sq ++ s ++ sq
  | .arr xs => "[" ++ pyReprItems xs ++ "]"
  | .obj kvs => String.singleton chLBrace ++ pyReprFields kvs ++ String.singleton chRBrace

def pyReprItems : List Json → String
  | [] => ""
  | [x] => pyRepr x
  | x :: y :: rest => pyRepr x ++ ", " ++ pyReprItems (y :: rest)

def pyReprFields : List (String × Json) → String
  | [] => ""
  | [(k, v)] => sq ++ k ++ sq ++ ": " ++ pyRepr v
  | (k, v) :: p :: rest => sq ++ k ++ sq ++ ": " ++ pyRepr v ++ ", " ++ pyReprFields (p :: rest)

end

/-- Python `str()` of a modelled value (as used by f-string interpolation
and `Tool.call`'s `str(result)`). -/
def pyStr : Json → String
  | .str s => s
  | j => pyRepr j

/-! ### Intent classifier (`intent_classifier.py`) -/

/-- `Intent` dataclass.  The dataclass annotates `name: str`,
`entities: Dict[str, Any]`, `reasoning: str`, but Python does not enforce
the annotations and `classify` stores raw `result.get(...)` values, so the
fields hold arbitrary values; `confidence` always passes through
`float(...)`. -/
structure Intent where
  name : Json
  confidence : ℚ
  entities : Json
  reasoning : Json
deriving Repr, DecidableEq

/-- The classifier's `intent_definitions` dictionary
(intent name → description), insertion-ordered. -/
abbrev IntentRegistry := List (String × String)

/-- `LLMIntentClassifier.register_intent`: rejects an empty name
(`ValueError`), coerces a falsy description, strips it, and stores it. -/
def register_intent (intent description : String) (reg : IntentRegistry) :
    Except String IntentRegistry :=
  if intent = "" then .error "Intent name cannot be empty."
  else .ok (dictSet reg intent (pyStrip (pyOrStr description "No description provided.")))

/-- `LLMIntentClassifier.unregister_intent`. -/
def unregister_intent (intent : String) (reg : IntentRegistry) : IntentRegistry :=
  reg.filter (fun p => p.1 ≠ intent)

/-- The default fallback intent computed at the top of `classify`:
`"out_of_scope" if "out_of_scope" in definitions else
next(iter(definitions), "out_of_scope")`. -/
def default_intent (defs : IntentRegistry) : String :=
  if defs.any (fun p => p.1 == "out_of_scope") then "out_of_scope"
  else
    match defs with
    | [] => "out_of_scope"
    | (k, _) :: _ => k

/-- The intent-definitions dictionary actually placed into the
classification prompt by `_build_classification_prompt`: an empty registry
is replaced by a default `out_of_scope` entry. -/
def promptDefs (defs : IntentRegistry) : IntentRegistry :=
  if defs.isEmpty then [("out_of_scope", "Default intent when no agents are registered.")]
  else defs

/-- Identifies a `generate_text` call site together with the arguments the
corresponding prompt builder in `prompts.py` receives.  The builders are
pure, total string formatting, and no claim depends on the rendered text,
so the prompt is modelled by the constructor rather than the string. -/
inductive Prompt where
  | classification (defs : IntentRegistry) (user : String) : Prompt
  | toolSelection (user : String) (toolsInfo : List (String × String × List (String × String))) :
      Prompt
  | toolResponse (user : String) (toolResult : String) : Prompt
  | conversational (user : String) (intent : Json) : Prompt
deriving Repr, DecidableEq

/-- One behaviour of the underlying model: for each `generate_text` call,
either the generated text (`ok`) or a raised exception's message
(`error`). -/
abbrev Model := Prompt → Except String String

/-- `LLMIntentClassifier.classify`.  The whole body after prompt
construction sits in a `try`: a raised generation exception, a `float()`
failure, or an `AttributeError` from `.get` on a non-`dict` parse result
all land in the `except` branch (confidence 0.0, default fallback name);
a `json.JSONDecodeError` is caught separately and yields the hard-coded
`out_of_scope` / 0.5 result. -/
def classify (model : Model) (reg : IntentRegistry) (user_input : String) : Intent :=
  let dflt := default_intent reg
  match model (.classification (promptDefs reg) user_input) with
  | .error e =>
    { name := .str dflt, confidence := mkRat 0 1, entities := .obj [],
      reasoning := .str ("Classification error: " ++ e) }
  | .ok response =>
    match json_loads (clean_response response) with
    | none =>
      { name := .str "out_of_scope", confidence := mkRat 1 2, entities := .obj [],
        reasoning := .str "Failed to parse LLM response - using default" }
    | some (.obj kvs) =>
      match pyFloat (jGetD kvs "confidence" (.num (mkRat 1 2))) with
      | .ok c =>
        { name := jGetD kvs "intent" (.str "out_of_scope"), confidence := c,
          entities := jGetD kvs "entities" (.obj []),
          reasoning := jGetD kvs "reasoning" (.str "") }
      | .error e =>
        { name := .str dflt, confidence := mkRat 0 1, entities := .obj [],
          reasoning := .str ("Classification error: " ++ e) }
    | some j =>
      { name := .str dflt, confidence := mkRat 0 1, entities := .obj [],
        reasoning := .str ("Classification error: " ++ sq ++ pyTypeName j ++ sq ++
          " object has no attribute " ++ sq ++ "get" ++ sq) }

/-! ### Tools (`tool.py`) -/

/-- `Tool` dataclass.  The wrapped callable receives keyword arguments
(modelled as an association list) and either returns a value or raises an
exception with a message. -/
structure Tool where
  name : String
  description : String
  function : List (String × Json) → Except String Json
  entities : List (String × String)

/-- `Tool.call(**kwargs)`: `str(result)` on success, `"Error: <message>"`
when the callable raises; total (never raises past its boundary). -/
def Tool.call (t : Tool) (kwargs : List (String × Json)) : String :=
  match t.function kwargs with
  | .ok result => pyStr result
  | .error e => "Error: " ++ e

/-! ### Agents (`agent.py`) -/

/-- `Agent`.  `hasModel` is the truthiness of `self.model` (the `if
self.model:` test in `execute`); the model's generation behaviour itself is
passed to the methods as a `Model` oracle. -/
structure Agent where
  name : String
  description : String
  hasModel : Bool
  tools : List (String × Tool)

/-- `Agent.register_tool`. -/
def Agent.register_tool (ag : Agent) (t : Tool) : Agent :=
  { ag with tools := dictSet ag.tools t.name t }

/-- The `tools_info` dictionary `_use_tool` builds for the tool-selection
prompt: name → (description, parameters). -/
def toolsInfoOf (tools : List (String × Tool)) : List (String × String × List (String × String)) :=
  tools.map (fun p => (p.1, p.2.description, p.2.entities))

/-- The entity-bag extraction in `_use_tool`:
`result.get("entities") or result.get("entieties") or
result.get("entitites") or {}` (Python `or`, so a present-but-falsy bag
falls through to the next spelling). -/
def extract_entities (kvs : List (String × Json)) : Json :=
  pyOrJson (jGetD kvs "entities" .null)
    (pyOrJson (jGetD kvs "entieties" .null)
      (pyOrJson (jGetD kvs "entitites" .null) (.obj [])))

/-- One-level unwrap of a dict entity bag:
`entities.get("input", {}) if "input" in entities else entities`. -/
def unwrap_input (ekvs : List (String × Json)) : Json :=
  if jHasKey ekvs "input" then jGetD ekvs "input" (.obj []) else .obj ekvs

/-- Substring test (Python `needle in haystack` on strings). -/
def listIsInfix (needle : List Char) : List Char → Bool
  | [] => needle.isEmpty
  | c :: rest => needle.isPrefixOf (c :: rest) || listIsInfix needle rest

/-- `input = entities.get("input", {}) if "input" in entities else entities`
for an arbitrary bag.  Non-dict bags: the `in` test is membership
(substring for `str`, element search for `list`, `TypeError` for
non-iterables); when it succeeds, `.get` raises `AttributeError`.  Errors
are modelled as `Except.error` and are caught by `_use_tool`'s `try`. -/
def extract_input (entities : Json) : Except String Json :=
  match entities with
  | .obj ekvs => .ok (unwrap_input ekvs)
  | .str s =>
    if listIsInfix "input".toList s.toList then
      .error (sq ++ "str" ++ sq ++ " object has no attribute " ++ sq ++ "get" ++ sq)
    else .ok (.str s)
  | .arr xs =>
    if xs.any (fun x => x == .str "input") then
      .error (sq ++ "list" ++ sq ++ " object has no attribute " ++ sq ++ "get" ++ sq)
    else .ok (.arr xs)
  | j => .error ("argument of type " ++ sq ++ pyTypeName j ++ sq ++ " is not iterable")

/-- `Agent._use_tool`.  Everything after the `tools_info`/prompt
construction sits in a `try` whose handler returns `None`; a missing
`tool_name` key and an unregistered tool name also return `None`.  The
`intent` parameter is received (as `intent.name` from `execute`, hence a
raw value) but never used by the body. -/
def use_tool (ag : Agent) (model : Model) (user_request : String) (intent : Json) :
    Option String :=
  match model (.toolSelection user_request (toolsInfoOf ag.tools)) with
  | .error _ => none
  | .ok response =>
    match json_loads (clean_response response) with
    | none => none
    | some (.obj kvs) =>
      if jHasKey kvs "tool_name" then
        let tool_name := jGetD kvs "tool_name" .null
        match extract_input (extract_entities kvs) with
        | .error _ => none
        | .ok input =>
          match tool_name with
          | .str n =>
            match dictGet? ag.tools n with
            | some tool => some (tool.call [("input", input)])
            | none => none
          | _ => none
      else none
    | some _ => none

/-- `Agent._generate_response`: picks the tool-result prompt when
`tool_result` is truthy, else the conversational prompt; strips the
generated text; on a generation exception returns
`tool_result or "I apologize, I'm having trouble responding."`. -/
def generate_response (model : Model) (user_request : String) (intent : Json)
    (tool_result : Option String) : String :=
  let prompt : Prompt :=
    if optStrTruthy tool_result then .toolResponse user_request (tool_result.getD "")
    else .conversational user_request intent
  match model prompt with
  | .ok response => pyStrip response
  | .error _ => pyOrOptStr tool_result "I apologize, I'm having trouble responding."

/-- `Agent.execute`. -/
def Agent.execute (ag : Agent) (model : Model) (user_request : String)
    (intent : Option Intent) : String :=
  let intent_name : Json :=
    match intent with
    | some i => i.name
    | none => .str "unknown"
  let tool_result : Option String :=
    if ag.tools.isEmpty then none else use_tool ag model user_request intent_name
  if ag.hasModel then generate_response model user_request intent_name tool_result
  else pyOrOptStr tool_result "I'm not configured properly."

/-! ### Orchestrator (`agent.py`) -/

/-- `AgentOrchestrator` state: the `agents` dictionary and the
classifier's intent registry. -/
structure AgentOrchestrator where
  agents : List (String × Agent)
  registry : IntentRegistry

/-- `AgentOrchestrator.register_agent`.  `self.agents[intent] = agent`
happens first; `register_intent` may then raise (`ValueError` on an empty
name), in which case the `agents` insertion persists.  The pair returned
is (state after the call, normal return or raised exception). -/
def register_agent (orch : AgentOrchestrator) (intent : String) (ag : Agent) :
    AgentOrchestrator × Except String Unit :=
  let agents' := dictSet orch.agents intent ag
  let description := pyOrStr ag.description ("Agent responsible for " ++ sq ++ intent ++ sq)
  match register_intent intent description orch.registry with
  | .ok reg' => ({ agents := agents', registry := reg' }, .ok ())
  | .error e => ({ agents := agents', registry := orch.registry }, .error e)

/-- `self.agents.get(intent.name)`: a string key is looked up; other
hashable values miss every string key; unhashable values (`list`/`dict`)
make `dict.get` raise `TypeError`. -/
def agents_get (agents : List (String × Agent)) (key : Json) : Except String (Option Agent) :=
  match key with
  | .str s => .ok (dictGet? agents s)
  | .arr _ => .error ("unhashable type: " ++ sq ++ "list" ++ sq)
  | .obj _ => .error ("unhashable type: " ++ sq ++ "dict" ++ sq)
  | _ => .ok none

/-- `AgentOrchestrator.execute`.  There is no `try` in this method: the
only way it can raise is the `agents.get` lookup on an unhashable
classified name. -/
def execute (orch : AgentOrchestrator) (model : Model) (user_request : String) :
    Except String String :=
  let intent := classify model orch.registry user_request
  match agents_get orch.agents intent.name with
  | .error e => .error e
  | .ok none => .ok ("I don't know how to handle: " ++ pyStr intent.name)
  | .ok (some ag) =>
    .ok ("[" ++ ag.name ++ "] " ++ ag.execute model user_request (some intent))

/-- Invariant claimed for the orchestrator state: every key of `agents` has
a matching entry in the classifier's intent registry. -/
def SyncInv (o : AgentOrchestrator) : Prop :=
  ∀ k : String, o.agents.any (fun p => p.1 == k) = true →
    o.registry.any (fun p => p.1 == k) = true

/-- A sequence of `register_agent` calls (states threaded through; raised
`ValueError`s leave the partially mutated state behind, as in Python). -/
def register_all (o : AgentOrchestrator) (regs : List (String × Agent)) : AgentOrchestrator :=
  regs.foldl (fun acc p => (register_agent acc p.1 p.2).1) o

/-! ### Concrete models, agents and responses used by witnesses and
counterexamples -/

/-- A model whose classification output has a JSON list as `intent`. -/
def unhashableIntentResponse : String :=
  "\x7b\"intent\": [1], \"confidence\": 1, \"entities\": \x7b\x7d, \"reasoning\": \"\"\x7d"

/-- A syntactically valid JSON object missing the `intent` key. -/
def missingIntentResponse : String :=
  "\x7b\"confidence\": 0.9, \"entities\": \x7b\x7d, \"reasoning\": \"r\"\x7d"

/-- A JSON object with all four keys but a non-numeric `confidence`. -/
def stringConfidenceResponse : String :=
  "\x7b\"intent\": \"greeting\", \"confidence\": \"high\", \"entities\": \x7b\x7d, \"reasoning\": \"r\"\x7d"

/-- A well-formed fenced classification response. -/
def greetingResponse : String :=
  "```json\n\x7b\"intent\": \"greeting\", \"confidence\": 0.9, \"entities\": \x7b\x7d, \"reasoning\": \"hi\"\x7d\n```"

/-- A model that answers every prompt with the same text. -/
def constModel (s : String) : Model := fun _ => .ok s

/-- A model classifying everything as `greeting` and greeting back. -/
def greetModel : Model := fun p =>
  match p with
  | .classification _ _ => .ok greetingResponse
  | .conversational _ _ => .ok "Hello!"
  | _ => .ok ""

/-- A tool-less conversational agent. -/
def greeterAgent : Agent :=
  { name := "Greeter", description := "Greets people", hasModel := true, tools := [] }

/-- A tool whose callable always raises. -/
def raisingTool : Tool :=
  { name := "raiser", description := "always fails",
    function := fun _ => .error "division by zero", entities := [] }

/-- A tool that returns its `input` keyword argument. -/
def echoTool : Tool :=
  { name := "echo", description := "echoes its input",
    function := fun kwargs => .ok (jGetD kwargs "input" .null),
    entities := [("input", "value to echo")] }

/-- An agent equipped with `echoTool`. -/
def echoAgent : Agent :=
  { name := "Echo", description := "Echoes things", hasModel := true,
    tools := [("echo", echoTool)] }

/-- A tool selection using the `entieties` misspelling and a nested
`input` key. -/
def toolSelResponse : String :=
  "\x7b\"tool_name\": \"echo\", \"entieties\": \x7b\"input\": \"5+3\"\x7d\x7d"

/-- A model that picks `echo` and phrases its result. -/
def toolModel : Model := fun p =>
  match p with
  | .toolSelection _ _ => .ok toolSelResponse
  | .toolResponse _ r => .ok ("The answer: " ++ r)
  | _ => .ok ""

/-- A tool-selection output with no `tool_name` key. -/
def noToolNameResponse : String := "\x7b\"reasoning\": \"no tool needed\"\x7d"

/-- A model whose tool selection omits `tool_name`. -/
def noToolModel : Model := fun p =>
  match p with
  | .toolSelection _ _ => .ok noToolNameResponse
  | .conversational _ _ => .ok "Just chatting."
  | _ => .ok "unused"

/-! ### Helper lemmas -/

theorem mkRat_one_half : mkRat 1 2 = (1 / 2 : ℚ) := by
  rw [Rat.mkRat_eq_divInt, Rat.divInt_eq_div]
  norm_num

theorem mkRat_zero_one : mkRat 0 1 = (0 : ℚ) := by
  rw [Rat.mkRat_eq_divInt, Rat.divInt_eq_div]
  norm_num

theorem jHasKey_of_jGet? {kvs : List (String × Json)} {k : String} {v : Json}
    (h : jGet? kvs k = some v) : jHasKey kvs k = true := by
  simp [jHasKey, h]

theorem jGetD_of_jGet? {kvs : List (String × Json)} {k : String} {v : Json} (d : Json)
    (h : jGet? kvs k = some v) : jGetD kvs k d = v := by
  simp [jGetD, h]

theorem jGetD_of_jGet?_none {kvs : List (String × Json)} {k : String} (d : Json)
    (h : jGet? kvs k = none) : jGetD kvs k d = d := by
  simp [jGetD, h]

theorem dictGet?_map_update {α : Type} (m : List (String × α)) (k : String) (v : α)
    (h : m.any (fun p => p.1 == k) = true) :
    dictGet? (m.map (fun p => if p.1 = k then (k, v) else p)) k = some v := by
  induction m with
  | nil => simp at h
  | cons p rest ih =>
    by_cases hp : p.1 = k
    · simp only [List.map_cons, if_pos hp]
      simp [dictGet?]
    · have hr : rest.any (fun q => q.1 == k) = true := by
        simp only [List.any_cons, Bool.or_eq_true, beq_iff_eq] at h
        rcases h with h | h
        · exact absurd h hp
        · simpa using h
      simp only [List.map_cons, if_neg hp]
      simp [dictGet?, hp, ih hr]

theorem dictGet?_append_single {α : Type} (m : List (String × α)) (k : String) (v : α)
    (h : m.any (fun p => p.1 == k) = false) :
    dictGet? (m ++ [(k, v)]) k = some v := by
  induction m with
  | nil => simp [dictGet?]
  | cons p rest ih =>
    have h1 : (p.1 == k) = false := by
      cases hpk : (p.1 == k) with
      | true => rw [List.any_cons, hpk] at h; simp at h
      | false => rfl
    have h2 : rest.any (fun q => q.1 == k) = false := by
      rw [List.any_cons, h1] at h
      simpa using h
    have hp : p.1 ≠ k := by simpa using h1
    simp [dictGet?, hp, ih h2]

/-- Setting a key makes it retrievable (`d[k] = v; d.get(k) == v`). -/
theorem dictGet?_dictSet_self {α : Type} (m : List (String × α)) (k : String) (v : α) :
    dictGet? (dictSet m k v) k = some v := by
  unfold dictSet
  cases hany : m.any (fun p => p.1 == k) with
  | true =>
    rw [if_pos rfl]
    exact dictGet?_map_update m k v hany
  | false =>
    rw [if_neg (by simp)]
    exact dictGet?_append_single m k v hany

theorem any_key_map_update {α : Type} (m : List (String × α)) (k k' : String) (v : α) :
    (m.map (fun p => if p.1 = k then (k, v) else p)).any (fun p => p.1 == k') =
      m.any (fun p => p.1 == k') := by
  induction m with
  | nil => simp
  | cons p rest ih =>
    by_cases hp : p.1 = k
    · simp [hp, ih]
    · simp [hp, ih]

/-- Key membership after `dictSet`. -/
theorem any_key_dictSet {α : Type} (m : List (String × α)) (k k' : String) (v : α) :
    (dictSet m k v).any (fun p => p.1 == k') =
      (m.any (fun p => p.1 == k') || k == k') := by
  unfold dictSet
  by_cases h : m.any (fun p => p.1 == k) = true
  · simp only [h, if_true, any_key_map_update]
    by_cases hk : k = k'
    · subst hk
      simp [h]
    · simp [hk]
  · simp only [h, if_false]
    simp [List.any_append]

/-! ### Claim theorems -/

/-- C6: for every `Tool` and parameter mapping, `Tool.call` returns
`str(v)` when the wrapped callable returns `v`, and the string
`"Error: <m>"` (in particular one starting with `"Error:"`) when the
callable raises with message `m`.  `Tool.call` is a total Lean function
into `String`, so it raises in no case. -/
theorem C6_tool_call (t : Tool) (kwargs : List (String × Json)) :
    (∀ v : Json, t.function kwargs = .ok v → t.call kwargs = pyStr v) ∧
    (∀ m : String, t.function kwargs = .error m →
      t.call kwargs = "Error: " ++ m ∧ ∃ rest, t.call kwargs = "Error:" ++ rest) := by
  constructor
  · intro v h
    simp [Tool.call, h]
  · intro m h
    have hc : t.call kwargs = "Error: " ++ m := by simp [Tool.call, h]
    refine ⟨hc, " " ++ m, ?_⟩
    rw [hc]
    apply String.ext
    simp only [String.data_append]
    rw [← List.append_assoc]
    rfl

/-- C6 witness: `raisingTool`'s callable raises with message
`"division by zero"`; `Tool.call` returns the `Error:`-prefixed string. -/
theorem C6_witness :
    raisingTool.call [] = "Error: " ++ "division by zero" ∧
      ∃ rest, raisingTool.call [] = "Error:" ++ rest :=
  (C6_tool_call raisingTool []).2 "division by zero" rfl

/-- C3 counterexample: with registry `[("greeting", …)]` (no
`out_of_scope` entry) the default fallback is `greeting`, but on a JSON
parse failure `classify` returns the hard-coded name `out_of_scope`, not
the default fallback the claim requires. -/
theorem C3_counterexample :
    json_loads (clean_response "not json") = none ∧
    default_intent [("greeting", "Handles greetings.")] = "greeting" ∧
    classify (constModel "not json") [("greeting", "Handles greetings.")] "hello" =
      { name := .str "out_of_scope", confidence := mkRat 1 2, entities := .obj [],
        reasoning := .str "Failed to parse LLM response - using default" } ∧
    (classify (constModel "not json") [("greeting", "Handles greetings.")] "hello").name ≠
      .str (default_intent [("greeting", "Handles greetings.")]) := by
  refine ⟨by decide, by decide, by decide, by decide⟩

/-- C3 amended: on a JSON parse failure after sanitization, `classify`
returns confidence exactly 0.5 with the literal name `out_of_scope`
regardless of the registry; on a raised generation exception it returns
confidence exactly 0.0 with the default fallback name (`out_of_scope` if
registered, else the first registered intent name). -/
theorem C3_fallback_confidences (model : Model) (reg : IntentRegistry) (user : String) :
    (∀ r : String, model (.classification (promptDefs reg) user) = .ok r →
      json_loads (clean_response r) = none →
      classify model reg user =
        { name := .str "out_of_scope", confidence := 1 / 2, entities := .obj [],
          reasoning := .str "Failed to parse LLM response - using default" }) ∧
    (∀ e : String, model (.classification (promptDefs reg) user) = .error e →
      classify model reg user =
        { name := .str (default_intent reg), confidence := 0, entities := .obj [],
          reasoning := .str ("Classification error: " ++ e) }) := by
  constructor
  · intro r hok hparse
    simp [classify, hok, hparse, mkRat_one_half]
  · intro e herr
    simp [classify, herr, mkRat_zero_one]

/-- C3 witness: a registry without `out_of_scope`, one parse-failure run
and one exception run, instantiating both halves of the amended claim. -/
theorem C3_witness :
    classify (constModel "not json") [("greeting", "Handles greetings.")] "hello" =
      { name := .str "out_of_scope", confidence := 1 / 2, entities := .obj [],
        reasoning := .str "Failed to parse LLM response - using default" } ∧
    classify (fun _ => .error "boom") [("greeting", "Handles greetings.")] "hello" =
      { name := .str "greeting", confidence := 0, entities := .obj [],
        reasoning := .str ("Classification error: " ++ "boom") } :=
  ⟨(C3_fallback_confidences (constModel "not json") [("greeting", "Handles greetings.")]
      "hello").1 "not json" rfl (by decide),
   (C3_fallback_confidences (fun _ => .error "boom") [("greeting", "Handles greetings.")]
      "hello").2 "boom" rfl⟩

/-- C4 counterexample: for a parsed object missing the `intent` key, with
a registry whose default fallback is `greeting`, `classify` does not fall
back to the default intent name: it keeps the present keys' values
(confidence 0.9, reasoning `"r"`) and uses the literal `out_of_scope` for
the missing `intent` — not the default fallback, not a fallback
confidence, and not a reasoning naming a failure cause. -/
theorem C4_counterexample :
    json_loads (clean_response missingIntentResponse) =
      some (.obj [("confidence", .num (mkRat 9 10)), ("entities", .obj []),
        ("reasoning", .str "r")]) ∧
    jGet? [(("confidence" : String), Json.num (mkRat 9 10)), ("entities", .obj []),
      ("reasoning", .str "r")] "intent" = none ∧
    default_intent [("greeting", "Handles greetings.")] = "greeting" ∧
    classify (constModel missingIntentResponse) [("greeting", "Handles greetings.")] "x" =
      { name := .str "out_of_scope", confidence := mkRat 9 10, entities := .obj [],
        reasoning := .str "r" } ∧
    (classify (constModel missingIntentResponse) [("greeting", "Handles greetings.")] "x").name ≠
      .str (default_intent [("greeting", "Handles greetings.")]) := by
  refine ⟨by decide, by decide, by decide, by decide, by decide⟩

/-- C4 amended: when the sanitized response parses as a JSON object, each
missing required key is defaulted individually — `intent` to the literal
`"out_of_scope"`, `confidence` to `0.5`, `entities` to `{}`, `reasoning`
to `""` — while present keys keep their JSON values (provided `float()`
accepts the confidence value; otherwise the exception branch of C3
applies). -/
theorem C4_missing_keys_defaults (model : Model) (reg : IntentRegistry) (user r : String)
    (kvs : List (String × Json)) (c : ℚ)
    (hok : model (.classification (promptDefs reg) user) = .ok r)
    (hparse : json_loads (clean_response r) = some (.obj kvs))
    (hconf : pyFloat (jGetD kvs "confidence" (.num (1 / 2))) = .ok c) :
    classify model reg user =
      { name := jGetD kvs "intent" (.str "out_of_scope"), confidence := c,
        entities := jGetD kvs "entities" (.obj []),
        reasoning := jGetD kvs "reasoning" (.str "") } := by
  simp only [classify, hok, hparse, mkRat_one_half, hconf]

/-- C4 witness: the object missing `intent` from the counterexample,
evaluated through the amended theorem. -/
theorem C4_witness :
    classify (constModel missingIntentResponse) [("greeting", "Handles greetings.")] "x" =
      { name := .str "out_of_scope", confidence := mkRat 9 10, entities := .obj [],
        reasoning := .str "r" } :=
  C4_missing_keys_defaults (constModel missingIntentResponse)
    [("greeting", "Handles greetings.")] "x" missingIntentResponse
    [("confidence", .num (mkRat 9 10)), ("entities", .obj []), ("reasoning", .str "r")]
    (mkRat 9 10) rfl (by decide) rfl

/-- C5 counterexample: a response that sanitizes to a JSON object holding
all four required keys but whose `confidence` is the string `"high"`;
`float("high")` raises, so `classify` lands in the exception branch and
none of the fields round-trips (the name is `out_of_scope`, not the JSON
value `greeting`). -/
theorem C5_counterexample :
    json_loads (clean_response stringConfidenceResponse) =
      some (.obj [("intent", .str "greeting"), ("confidence", .str "high"),
        ("entities", .obj []), ("reasoning", .str "r")]) ∧
    classify (constModel stringConfidenceResponse) [] "x" =
      { name := .str "out_of_scope", confidence := mkRat 0 1, entities := .obj [],
        reasoning := .str ("Classification error: " ++
          ("could not convert string to float: " ++ sq ++ "high" ++ sq)) } ∧
    (classify (constModel stringConfidenceResponse) [] "x").name ≠ .str "greeting" ∧
    (classify (constModel stringConfidenceResponse) [] "x").reasoning ≠ .str "r" := by
  refine ⟨by decide, by decide, by decide, by decide⟩

/-- C5 amended: for every model response the sanitizer reduces to a valid
JSON object containing all four required keys, with the `confidence`
value a JSON number, `classify` returns an Intent whose name, confidence,
entities and reasoning exactly equal the corresponding JSON values
(round-trip).  (With a non-numeric confidence, `float()` raises and the
exception fallback of C3/C5-counterexample applies instead.) -/
theorem C5_roundtrip (model : Model) (reg : IntentRegistry) (user r : String)
    (kvs : List (String × Json)) (nv ev rv : Json) (c : ℚ)
    (hok : model (.classification (promptDefs reg) user) = .ok r)
    (hparse : json_loads (clean_response r) = some (.obj kvs))
    (hn : jGet? kvs "intent" = some nv)
    (hc : jGet? kvs "confidence" = some (.num c))
    (he : jGet? kvs "entities" = some ev)
    (hr : jGet? kvs "reasoning" = some rv) :
    classify model reg user =
      { name := nv, confidence := c, entities := ev, reasoning := rv } := by
  have h1 := jGetD_of_jGet? (Json.str "out_of_scope") hn
  have h2 := jGetD_of_jGet? (Json.num (mkRat 1 2)) hc
  have h3 := jGetD_of_jGet? (Json.obj []) he
  have h4 := jGetD_of_jGet? (Json.str "") hr
  simp only [classify, hok, hparse, h1, h2, h3, h4, pyFloat]

/-- C5 witness: a fenced well-formed response (` ```json … ``` `) whose
sanitized JSON round-trips exactly into the returned Intent. -/
theorem C5_witness :
    classify greetModel [("greeting", "Handles greetings.")] "hello" =
      { name := .str "greeting", confidence := mkRat 9 10, entities := .obj [],
        reasoning := .str "hi" } :=
  C5_roundtrip greetModel [("greeting", "Handles greetings.")] "hello" greetingResponse
    [("intent", .str "greeting"), ("confidence", .num (mkRat 9 10)),
      ("entities", .obj []), ("reasoning", .str "hi")]
    (.str "greeting") (.obj []) (.str "hi") (mkRat 9 10)
    rfl (by decide) rfl rfl rfl rfl

/-- C10: when the sanitized response is valid JSON but not a JSON object
(array, string, number, boolean or null), `.get` on the parse result
raises `AttributeError`, so `classify` returns through the exception
branch: default fallback name, confidence exactly 0.0, and a reasoning
string starting with `"Classification error:"` — not the confidence-0.5
parse-failure result. -/
theorem C10_nonobject_json (model : Model) (reg : IntentRegistry) (user r : String) (j : Json)
    (hok : model (.classification (promptDefs reg) user) = .ok r)
    (hparse : json_loads (clean_response r) = some j)
    (hnotobj : ∀ kvs, j ≠ .obj kvs) :
    classify model reg user =
      { name := .str (default_intent reg), confidence := 0, entities := .obj [],
        reasoning := .str ("Classification error: " ++ sq ++ pyTypeName j ++ sq ++
          " object has no attribute " ++ sq ++ "get" ++ sq) } := by
  cases j with
  | obj kvs => exact absurd rfl (hnotobj kvs)
  | null => simp [classify, hok, hparse, mkRat_zero_one]
  | bool b => simp [classify, hok, hparse, mkRat_zero_one]
  | num q => simp [classify, hok, hparse, mkRat_zero_one]
  | str s => simp [classify, hok, hparse, mkRat_zero_one]
  | arr xs => simp [classify, hok, hparse, mkRat_zero_one]

/-- C10 witness: the valid non-object JSON `[1, 2]` takes the exception
branch with confidence 0.0 and a `Classification error:` reasoning. -/
theorem C10_witness :
    classify (constModel "[1, 2]") [("greeting", "Handles greetings.")] "x" =
      { name := .str "greeting", confidence := 0, entities := .obj [],
        reasoning := .str ("Classification error: " ++ sq ++ "list" ++ sq ++
          " object has no attribute " ++ sq ++ "get" ++ sq) } :=
  C10_nonobject_json (constModel "[1, 2]") [("greeting", "Handles greetings.")] "x"
    "[1, 2]" (.arr [.num (mkRat 1 1), .num (mkRat 2 1)]) rfl (by decide)
    (fun kvs h => Json.noConfusion h)

/-- Both components of the state returned by `register_agent` on a
non-empty intent name. -/
theorem register_agent_eq_of_ne {o : AgentOrchestrator} {I : String} (A : Agent)
    (hI : I ≠ "") :
    register_agent o I A =
      ({ agents := dictSet o.agents I A,
         registry := dictSet o.registry I
           (pyStrip (pyOrStr (pyOrStr A.description ("Agent responsible for " ++ sq ++ I ++ sq))
             "No description provided.")) }, .ok ()) := by
  simp only [register_agent, register_intent, if_neg hI]

/-- A successful `register_agent` call preserves the agents-registry sync
invariant. -/
theorem SyncInv_step {o : AgentOrchestrator} {I : String} {A : Agent}
    (hI : I ≠ "") (h : SyncInv o) : SyncInv (register_agent o I A).1 := by
  rw [register_agent_eq_of_ne A hI]
  intro k hk
  simp only [any_key_dictSet] at hk ⊢
  cases hik : (I == k) with
  | true => simp
  | false =>
    simp only [Bool.or_false]
    rw [hik, Bool.or_false] at hk
    exact h k hk

/-- The sync invariant is preserved by any sequence of `register_agent`
calls with non-empty intent names. -/
theorem SyncInv_register_all (regs : List (String × Agent)) :
    ∀ o : AgentOrchestrator, (∀ p ∈ regs, p.1 ≠ "") → SyncInv o →
      SyncInv (register_all o regs) := by
  induction regs with
  | nil => intro o _ h; exact h
  | cons p rest ih =>
    intro o hne h
    exact ih ((register_agent o p.1 p.2).1)
      (fun q hq => hne q (List.mem_cons_of_mem _ hq))
      (SyncInv_step (hne p (List.mem_cons_self _ _)) h)

/-- C2: after `register_agent(I, A)`, a classification whose returned
intent name is `I` makes `execute` delegate to exactly `A` and return
`"[<A.name>] <A's reply>"`; and for any orchestrator, when no agent is
registered under the (string) name the classification returned, `execute`
returns exactly `"I don't know how to handle: <intent name>"`. -/
theorem C2_routing (orch : AgentOrchestrator) (model : Model) (I : String) (A : Agent)
    (req : String) :
    ((classify model (register_agent orch I A).1.registry req).name = .str I →
      execute (register_agent orch I A).1 model req =
        .ok ("[" ++ A.name ++ "] " ++
          A.execute model req
            (some (classify model (register_agent orch I A).1.registry req)))) ∧
    (∀ (o : AgentOrchestrator) (nm : String),
      (classify model o.registry req).name = .str nm →
      dictGet? o.agents nm = none →
      execute o model req = .ok ("I don't know how to handle: " ++ nm)) := by
  constructor
  · intro hclass
    have hagents : (register_agent orch I A).1.agents = dictSet orch.agents I A := by
      cases h : register_intent I
        (pyOrStr A.description ("Agent responsible for " ++ sq ++ I ++ sq)) orch.registry <;>
        simp [register_agent, h]
    simp only [execute, hagents, hclass, agents_get, dictGet?_dictSet_self]
  · intro o nm hclass hlook
    simp only [execute, hclass, agents_get, hlook, pyStr]

/-- C2 witness: registering `greeterAgent` under `greeting` and running a
model that classifies the request as `greeting`. -/
theorem C2_witness :
    execute (register_agent ⟨[], []⟩ "greeting" greeterAgent).1 greetModel "hi" =
      .ok ("[" ++ greeterAgent.name ++ "] " ++
        greeterAgent.execute greetModel "hi"
          (some (classify greetModel
            (register_agent ⟨[], []⟩ "greeting" greeterAgent).1.registry "hi"))) :=
  (C2_routing ⟨[], []⟩ greetModel "greeting" greeterAgent "hi").1 (by decide)

/-- C1: the spec claims `Orchestrator.execute` always returns a string and
never raises, for every shape of model output.  The code violates this:
when the classification output parses to a JSON object whose `intent`
value is a list (or dict), `classify` stores it unvalidated in
`Intent.name` (despite the dataclass's `name: str` annotation) and
`self.agents.get(intent.name)` raises `TypeError: unhashable type` out of
`execute`, which has no `try`/`except`. -/
theorem C1_execute_raises_on_unhashable_intent :
    execute ⟨[], []⟩ (constModel unhashableIntentResponse) "hello" =
      .error ("unhashable type: " ++ sq ++ "list" ++ sq) ∧
    (classify (constModel unhashableIntentResponse) [] "hello").name =
      .arr [.num (mkRat 1 1)] := by
  exact ⟨rfl, by decide⟩

/-- C7 counterexample: `register_agent("", A)` mutates `agents` first and
then `register_intent` raises `ValueError`, leaving `agents` with a key
(`""`) that has no registry entry — the call is not atomic and the
invariant is broken. -/
theorem C7_counterexample :
    (register_agent ⟨[], []⟩ "" greeterAgent).1.agents.any (fun p => p.1 == "") = true ∧
    (register_agent ⟨[], []⟩ "" greeterAgent).1.registry.any (fun p => p.1 == "") = false ∧
    (register_agent ⟨[], []⟩ "" greeterAgent).2 = .error "Intent name cannot be empty." ∧
    ¬ SyncInv (register_agent ⟨[], []⟩ "" greeterAgent).1 := by
  refine ⟨by decide, by decide, rfl, ?_⟩
  intro hinv
  exact absurd (hinv "" (by decide)) (by decide)

/-- C7 amended: after any sequence of `register_agent` calls with
non-empty intent names, every key of `agents` has a matching registry
entry; each such call returns normally and installs the agent and the
registry entry in the same call.  (A call with an empty intent name
raises `ValueError` after mutating `agents`, breaking the invariant — see
the counterexample.) -/
theorem C7_registration_sync (regs : List (String × Agent)) (o : AgentOrchestrator)
    (hne : ∀ p ∈ regs, p.1 ≠ "") (h : SyncInv o) :
    SyncInv (register_all o regs) ∧
    (∀ (o' : AgentOrchestrator) (I : String) (A : Agent), I ≠ "" →
      (register_agent o' I A).2 = .ok () ∧
      dictGet? (register_agent o' I A).1.agents I = some A ∧
      (register_agent o' I A).1.registry.any (fun p => p.1 == I) = true) := by
  constructor
  · exact SyncInv_register_all regs o hne h
  · intro o' I A hI
    rw [register_agent_eq_of_ne A hI]
    refine ⟨rfl, dictGet?_dictSet_self _ _ _, ?_⟩
    rw [any_key_dictSet]
    simp

/-- C7 witness: one registration with a non-empty name starting from the
empty orchestrator. -/
theorem C7_witness :
    SyncInv (register_all ⟨[], []⟩ [("greeting", greeterAgent)]) ∧
    (register_agent ⟨[], []⟩ "greeting" greeterAgent).2 = .ok () :=
  ⟨(C7_registration_sync [("greeting", greeterAgent)] ⟨[], []⟩
      (by intro p hp; simp at hp; subst hp; decide)
      (by intro k hk; simp at hk)).1,
   ((C7_registration_sync [("greeting", greeterAgent)] ⟨[], []⟩
      (by intro p hp; simp at hp; subst hp; decide)
      (by intro k hk; simp at hk)).2 ⟨[], []⟩ "greeting" greeterAgent (by decide)).1⟩

/-- C8: when the tool-selection output sanitizes and parses to a JSON
object whose `tool_name` names a registered tool, `_use_tool` extracts
the parameter bag from `entities` (with the misspellings `entieties` /
`entitites` as fallback synonyms), unwraps one level when the bag holds a
nested `input` key (`unwrap_input`), invokes `Tool.call` passing the bag
as the `input` keyword argument, and returns the tool's string result. -/
theorem C8_use_tool_invokes (ag : Agent) (model : Model) (req : String) (intentArg : Json)
    (r : String) (kvs ekvs : List (String × Json)) (n : String) (t : Tool)
    (hok : model (.toolSelection req (toolsInfoOf ag.tools)) = .ok r)
    (hparse : json_loads (clean_response r) = some (.obj kvs))
    (htn : jGet? kvs "tool_name" = some (.str n))
    (hent : extract_entities kvs = .obj ekvs)
    (hlook : dictGet? ag.tools n = some t) :
    use_tool ag model req intentArg = some (t.call [("input", unwrap_input ekvs)]) := by
  have hkey := jHasKey_of_jGet? htn
  have hname := jGetD_of_jGet? Json.null htn
  simp only [use_tool, hok, hparse, hkey, if_true, hname, hent, extract_input, hlook]

/-- C8 witness: a selection using the `entieties` misspelling with a
nested `input` key; the echo tool receives the unwrapped value. -/
theorem C8_witness :
    use_tool echoAgent toolModel "what is 5+3" (.str "calculate") = some "5+3" :=
  C8_use_tool_invokes echoAgent toolModel "what is 5+3" (.str "calculate")
    toolSelResponse
    [("tool_name", .str "echo"), ("entieties", .obj [("input", .str "5+3")])]
    [("input", .str "5+3")] "echo" echoTool
    rfl (by decide) (by decide) (by decide) rfl

/-- C9: `_use_tool` returns `None` and propagates no exception when the
parsed selection object lacks `tool_name`, when `tool_name` is not a
registered tool, when generation raises, when the response fails to
parse, or when parameter extraction raises; and in the missing-`tool_name`
case `Agent.execute` falls through to the no-tool conversational response
path (the conversational prompt, with the apology fallback when that
generation raises too). -/
theorem C9_use_tool_failures (ag : Agent) (model : Model) (req : String) (it : Intent) :
    (∀ (r : String) (kvs : List (String × Json)),
      model (.toolSelection req (toolsInfoOf ag.tools)) = .ok r →
      json_loads (clean_response r) = some (.obj kvs) →
      jHasKey kvs "tool_name" = false →
      use_tool ag model req it.name = none) ∧
    (∀ (r : String) (kvs : List (String × Json)) (n : String),
      model (.toolSelection req (toolsInfoOf ag.tools)) = .ok r →
      json_loads (clean_response r) = some (.obj kvs) →
      jGet? kvs "tool_name" = some (.str n) →
      dictGet? ag.tools n = none →
      use_tool ag model req it.name = none) ∧
    (∀ e : String, model (.toolSelection req (toolsInfoOf ag.tools)) = .error e →
      use_tool ag model req it.name = none) ∧
    (∀ r : String, model (.toolSelection req (toolsInfoOf ag.tools)) = .ok r →
      json_loads (clean_response r) = none →
      use_tool ag model req it.name = none) ∧
    (∀ (r : String) (kvs : List (String × Json)) (e : String),
      model (.toolSelection req (toolsInfoOf ag.tools)) = .ok r →
      json_loads (clean_response r) = some (.obj kvs) →
      extract_input (extract_entities kvs) = .error e →
      use_tool ag model req it.name = none) ∧
    (∀ (r : String) (kvs : List (String × Json)),
      model (.toolSelection req (toolsInfoOf ag.tools)) = .ok r →
      json_loads (clean_response r) = some (.obj kvs) →
      jHasKey kvs "tool_name" = false →
      ag.tools.isEmpty = false → ag.hasModel = true →
      Agent.execute ag model req (some it) =
        (match model (.conversational req it.name) with
         | .ok resp => pyStrip resp
         | .error _ => "I apologize, I'm having trouble responding.")) := by
  refine ⟨?_, ?_, ?_, ?_, ?_, ?_⟩
  · intro r kvs hok hparse hkey
    simp [use_tool, hok, hparse, hkey]
  · intro r kvs n hok hparse htn hlook
    cases hei : extract_input (extract_entities kvs) with
    | error e => simp [use_tool, hok, hparse, jHasKey_of_jGet? htn, hei]
    | ok input =>
      simp [use_tool, hok, hparse, jHasKey_of_jGet? htn, jGetD_of_jGet? Json.null htn,
        hei, hlook]
  · intro e herr
    simp [use_tool, herr]
  · intro r hok hparse
    simp [use_tool, hok, hparse]
  · intro r kvs e hok hparse hei
    cases hkey : jHasKey kvs "tool_name" with
    | true => simp [use_tool, hok, hparse, hkey, hei]
    | false => simp [use_tool, hok, hparse, hkey]
  · intro r kvs hok hparse hkey htools hmodel
    have hnone : use_tool ag model req it.name = none := by
      simp [use_tool, hok, hparse, hkey]
    simp only [Agent.execute, htools, Bool.false_eq_true, if_false, hnone, hmodel, if_true,
      generate_response, optStrTruthy, pyOrOptStr, Bool.false_eq_true, if_false]

/-- C9 witness: a selection response lacking `tool_name` on an agent with
tools; `_use_tool` yields `None` and `execute` answers via the
conversational path. -/
theorem C9_witness :
    use_tool echoAgent noToolModel "hi" (Json.str "greeting") = none ∧
    Agent.execute echoAgent noToolModel "hi"
      (some { name := .str "greeting", confidence := 0, entities := .obj [],
              reasoning := .str "" }) = "Just chatting." :=
  ⟨(C9_use_tool_failures echoAgent noToolModel "hi"
      { name := .str "greeting", confidence := 0, entities := .obj [], reasoning := .str "" }).1
      noToolNameResponse [("reasoning", .str "no tool needed")] rfl (by decide) (by decide),
   (C9_use_tool_failures echoAgent noToolModel "hi"
      { name := .str "greeting", confidence := 0, entities := .obj [],
        reasoning := .str "" }).2.2.2.2.2
      noToolNameResponse [("reasoning", .str "no tool needed")] rfl (by decide) (by decide)
      rfl rfl⟩

end Chatbot

